import Mathlib

/-!
Verification of the session-controller logic of the AI meeting summarizer
front-end (`src/frontend/src/App.js`).

The component keeps its whole session in React `useState` hooks; every
handler is a plain function from the current state (plus, for the network
operations, the eventual fetch outcome) to a new state and a list of issued
network requests.  We embed that state and those handlers directly.  JS
string truthiness (`!s` is true exactly for the empty string, since the
hooks are initialised with `''`) is modelled as equality with `""`;
`String.prototype.trim` and `String.prototype.endsWith` are modelled over
the character list of the string.
-/

namespace Summarizer

/-- The characters `String.prototype.trim` strips, per ECMA-262
`TrimString`: WhiteSpace (tab, VT, FF, space, NBSP, ZWNBSP and the
Unicode space separators U+1680, U+2000–U+200A, U+202F, U+205F, U+3000)
and LineTerminator (LF, CR, LS, PS). -/
def isWs (c : Char) : Bool :=
  c = '\t' || c = '\n' || c = '\u000B' || c = '\u000C' || c = '\r'
    || c = ' ' || c = '\u00A0' || c = '\u1680'
    || ('\u2000' ≤ c && c ≤ '\u200A')
    || c = '\u2028' || c = '\u2029' || c = '\u202F' || c = '\u205F'
    || c = '\u3000' || c = '\uFEFF'

/-- Model of `String.prototype.trim`: drop leading and trailing
whitespace. -/
def jsTrim (s : String) : String :=
  ⟨((s.data.dropWhile isWs).reverse.dropWhile isWs).reverse⟩

/-- Model of `String.prototype.endsWith`. -/
def jsEndsWith (s suffix : String) : Bool :=
  suffix.data.isSuffixOf s.data

/-- The transient notification, `alert` in the source
(`{ show: false, type: '', message: '' }` initially). -/
structure Alert where
  shown : Bool
  type : String
  message : String
  deriving Repr, DecidableEq

/-- Initial alert value: `{ show: false, type: '', message: '' }`. -/
def Alert.none : Alert := ⟨false, "", ""⟩

/-- Immediate effect of `showAlert(type, message)` on the alert field.
(The deferred 4000 ms clear it schedules is modelled separately by the
timed notification semantics below.) -/
def showAlert (type message : String) : Alert :=
  ⟨true, type, message⟩

/-- The session state: the `useState` hooks of `App` (the `fileInputRef`
is presentation plumbing and carries no session data). -/
structure AppState where
  transcript : String
  customPrompt : String
  summary : String
  summaryId : String
  fileName : String
  loading : Bool
  alert : Alert
  recipientEmails : String
  editMode : Bool
  inputMethod : String
  deriving Repr, DecidableEq

/-- The initial state of all hooks. -/
def initialState : AppState :=
  { transcript := "", customPrompt := "", summary := "", summaryId := ""
    fileName := "", loading := false, alert := Alert.none
    recipientEmails := "", editMode := false, inputMethod := "paste" }

/-- A network request issued through `fetch`. -/
inductive Request where
  | upload (fileName : String)
  | generate (transcript customPrompt : String)
  | update (summaryId updatedSummary : String)
  deriving Repr, DecidableEq

/-- Outcome of an awaited `fetch`: `ok` is `response.ok && data.success`
with the payload fields; `remoteFail detail` is a reachable response whose
`data.detail` is read (`throw new Error(data.detail || fallback)`);
`transportFail msg` is a thrown transport error with message `msg`. -/
inductive FetchOutcome (α : Type) where
  | ok (payload : α)
  | remoteFail (detail : String)
  | transportFail (msg : String)
  deriving Repr, DecidableEq

/-- `handleFileUpload`: the `event.target.files[0]` argument is the
optional selected file, carrying its name; the upload response returns
the decoded transcript text. -/
def handleFileUpload (s : AppState) (file : Option String)
    (resp : FetchOutcome String) : AppState × List Request :=
  match file with
  | Option.none => (s, [])
  | some name =>
    if ¬ jsEndsWith name ".txt" then
      ({ s with alert := showAlert "error" "Please upload a .txt file only" }, [])
    else
      let req := Request.upload name
      match resp with
      | .ok transcript =>
        ({ s with transcript := transcript, fileName := name
                  alert := showAlert "success" "Transcript uploaded successfully!"
                  loading := false }, [req])
      | .remoteFail detail =>
        ({ s with alert := showAlert "error"
                    (if detail = "" then "Upload failed" else detail)
                  loading := false }, [req])
      | .transportFail msg =>
        ({ s with alert := showAlert "error"
                    (if msg = "" then "Failed to upload transcript" else msg)
                  loading := false }, [req])

/-- Payload of a successful `/api/generate-summary` response. -/
structure GenPayload where
  summary : String
  summary_id : String
  deriving Repr, DecidableEq

/-- `handleGenerateSummary`. -/
def handleGenerateSummary (s : AppState)
    (resp : FetchOutcome GenPayload) : AppState × List Request :=
  if jsTrim s.transcript = "" then
    ({ s with alert := showAlert "error" "Please provide a transcript first" }, [])
  else if jsTrim s.customPrompt = "" then
    ({ s with alert := showAlert "error" "Please enter a custom instruction" }, [])
  else
    let req := Request.generate s.transcript s.customPrompt
    match resp with
    | .ok p =>
      ({ s with summary := p.summary, summaryId := p.summary_id
                editMode := true
                alert := showAlert "success" "Summary generated successfully!"
                loading := false }, [req])
    | .remoteFail detail =>
      ({ s with alert := showAlert "error"
                  (if detail = "" then "Summary generation failed" else detail)
                loading := false }, [req])
    | .transportFail msg =>
      ({ s with alert := showAlert "error"
                  (if msg = "" then "Failed to generate summary" else msg)
                loading := false }, [req])

/-- `handleUpdateSummary`: `if (!summaryId || !summary.trim()) return;`
silently bails out; otherwise issues the update request. -/
def handleUpdateSummary (s : AppState)
    (resp : FetchOutcome Unit) : AppState × List Request :=
  if s.summaryId = "" || jsTrim s.summary = "" then
    (s, [])
  else
    let req := Request.update s.summaryId s.summary
    match resp with
    | .ok _ =>
      ({ s with alert := showAlert "success" "Summary updated successfully!"
                editMode := false, loading := false }, [req])
    | .remoteFail detail =>
      ({ s with alert := showAlert "error"
                  (if detail = "" then "Update failed" else detail)
                loading := false }, [req])
    | .transportFail msg =>
      ({ s with alert := showAlert "error"
                  (if msg = "" then "Failed to update summary" else msg)
                loading := false }, [req])

/-- The mail-compose request handed to the local mail client
(before URI encoding, which is presentation). -/
structure Mailto where
  recipients : String
  subject : String
  body : String
  deriving Repr, DecidableEq

/-- `handleSendEmail`: synchronous; returns the new state and the
mail-compose dispatch when one is performed. -/
def handleSendEmail (s : AppState) : AppState × Option Mailto :=
  if jsTrim s.summary = "" then
    ({ s with alert := showAlert "error" "No summary to send" }, Option.none)
  else if s.editMode then
    ({ s with alert := showAlert "error" "Please save your edits before sending" },
     Option.none)
  else
    ({ s with alert := showAlert "success" "Email client opened with summary" },
     some { recipients := s.recipientEmails
            subject := "Meeting Summary"
            body := "Hi,\n\nPlease find the meeting summary below:\n\n"
                     ++ s.summary ++ "\n\nBest regards" })

/-- `clearAll`: the seven `set...('')`/`setEditMode(false)` calls.
It does not touch `loading`, `alert`, or `inputMethod`. -/
def clearAll (s : AppState) : AppState :=
  { s with transcript := "", summary := "", customPrompt := ""
           fileName := "", summaryId := "", editMode := false
           recipientEmails := "" }

/-- The paste path: the transcript textarea's
`onChange={(e) => setTranscript(e.target.value)}`. -/
def pasteTranscript (s : AppState) (text : String) : AppState :=
  { s with transcript := text }

/-- `onClick={() => editMode ? handleUpdateSummary() : setEditMode(true)}`:
the Edit/Save button's action. -/
def toggleOrSaveEdit (s : AppState) (resp : FetchOutcome Unit) :
    AppState × List Request :=
  if s.editMode then handleUpdateSummary s resp
  else ({ s with editMode := true }, [])

/-- `disabled={loading || !transcript || !customPrompt}` on the
Generate button. -/
def generateDisabled (s : AppState) : Bool :=
  s.loading || s.transcript = "" || s.customPrompt = ""

/-- `disabled={loading}` on the Edit/Save button. -/
def editSaveDisabled (s : AppState) : Bool :=
  s.loading

/-- `disabled={editMode}` on the Send-via-Email button. -/
def sendDisabled (s : AppState) : Bool :=
  s.editMode

/-- The Clear button carries no `disabled` attribute. -/
def clearDisabled (_ : AppState) : Bool :=
  false

/-- The file `<input>` carries no `disabled` attribute. -/
def uploadDisabled (_ : AppState) : Bool :=
  false

/-!
Timed semantics of the notification channel.  `showAlert(type, message)`
sets the alert and calls `setTimeout(() => setAlert(cleared), 4000)`: an
*unconditional* clear fires 4000 ms later, and nothing ever cancels a
pending timer.  We model a run of the single-threaded event loop by the
list of `showAlert` calls with their (strictly increasing) timestamps;
each call additionally contributes a clear event 4000 ms later, and all
events are processed in time order (a timer already due when a user
action happens at the same instant runs first). -/

/-- An event on the notification channel. -/
inductive TEvent where
  | display (type message : String)
  | expired
  deriving Repr, DecidableEq

/-- An event with its timestamp in milliseconds. -/
abbrev TimedEvent := Nat × TEvent

/-- Insert an event into a time-sorted event list, before the first event
with an equal or later timestamp (so an inserted timer precedes a user
action at the same instant). -/
def insertEv (x : TimedEvent) : List TimedEvent → List TimedEvent
  | [] => [x]
  | y :: l => if x.1 ≤ y.1 then x :: y :: l else y :: insertEv x l

/-- The time-ordered event list of a run: the `showAlert` calls
themselves, plus, for each one, the clear its `setTimeout` schedules
4000 ms later. -/
def timeline (shows : List (Nat × String × String)) : List TimedEvent :=
  (shows.map (fun p => (p.1 + 4000, TEvent.expired))).foldr insertEv
    (shows.map (fun p => (p.1, TEvent.display p.2.1 p.2.2)))

/-- Effect of one event on the alert: a `showAlert` call overwrites the
alert, a firing timer resets it to the cleared value unconditionally. -/
def notifStep (_a : Alert) : TEvent → Alert
  | .display ty msg => showAlert ty msg
  | .expired => Alert.none

/-- The alert visible at time `T`, given the run's `showAlert` calls:
fold the events that have happened by `T` over the initial alert. -/
def alertAt (shows : List (Nat × String × String)) (T : Nat) : Alert :=
  ((timeline shows).filter (fun e => e.1 ≤ T)).foldl
    (fun a e => notifStep a e.2) Alert.none

/-! Helper lemmas about `insertEv` and `timeline`. -/

theorem insertEv_concat_of_le (x s : TimedEvent) (l : List TimedEvent)
    (h : x.1 ≤ s.1) : insertEv x (l ++ [s]) = insertEv x l ++ [s] := by
  induction l with
  | nil => simp [insertEv, h]
  | cons y l ih =>
    by_cases hxy : x.1 ≤ y.1
    · simp [insertEv, hxy]
    · simp [insertEv, hxy, ih]

theorem insertEv_eq_concat (x : TimedEvent) (l : List TimedEvent)
    (h : ∀ y ∈ l, y.1 < x.1) : insertEv x l = l ++ [x] := by
  induction l with
  | nil => simp [insertEv]
  | cons y l ih =>
    have hy : y.1 < x.1 := h y (List.mem_cons_self _ _)
    have : ¬ x.1 ≤ y.1 := by omega
    simp only [insertEv, this, if_false]
    rw [ih (fun z hz => h z (List.mem_cons_of_mem _ hz))]
    simp

theorem foldr_insertEv_concat₂ (E S : List TimedEvent) (t u : Nat)
    (a b : TEvent) (hE : ∀ e ∈ E, e.1 ≤ t) (htu : t ≤ u) :
    E.foldr insertEv (S ++ [(t, a), (u, b)]) =
      E.foldr insertEv S ++ [(t, a), (u, b)] := by
  induction E with
  | nil => rfl
  | cons e E ih =>
    have het : e.1 ≤ t := hE e (List.mem_cons_self _ _)
    have ih' := ih (fun x hx => hE x (List.mem_cons_of_mem _ hx))
    have step : insertEv e (E.foldr insertEv S ++ [(t, a), (u, b)]) =
        insertEv e (E.foldr insertEv S) ++ [(t, a), (u, b)] := by
      have h1 : (E.foldr insertEv S ++ [(t, a)]) ++ [(u, b)] =
          E.foldr insertEv S ++ [(t, a), (u, b)] := by simp
      rw [← h1, insertEv_concat_of_le e (u, b) _ (le_trans het htu),
        insertEv_concat_of_le e (t, a) _ het]
      simp
    simp only [List.foldr_cons, ih', step]

/-- C9: the claim that a notification shown at time `t` always remains
visible until `t + 4000` unless replaced is false: the notification shown
at `t = 3000` is never replaced and `T = 4500` lies inside its window,
yet the stale timer of the notification shown at `t = 0` (firing at
`4000`, never cancelled) has already cleared it. -/
theorem notification_early_clear_cex :
    3000 ≤ 4500 ∧ 4500 < 3000 + 4000 ∧
      alertAt [(0, "success", "A"), (3000, "error", "B")] 4500 = Alert.none := by
  refine ⟨by norm_num, by norm_num, ?_⟩
  decide

/-- C9 (amended): each `showAlert` immediately replaces the displayed
notification and schedules an unconditional clear 4000 ms later; the last
notification, shown at `t`, is visible at every `T` with
`t ≤ T < t + 4000` *provided* every earlier notification was shown at
least 4000 ms before `t` (so no stale timer is still pending); without
that proviso a stale timer may clear it early, as the counterexample
shows. -/
theorem notification_window (init : List (Nat × String × String))
    (t T : Nat) (ty msg : String)
    (hstale : ∀ p ∈ init, p.1 + 4000 ≤ t) (h1 : t ≤ T) (h2 : T < t + 4000) :
    alertAt (init ++ [(t, ty, msg)]) T = showAlert ty msg := by
  have hmapE : (init ++ [(t, ty, msg)]).map
        (fun p => (p.1 + 4000, TEvent.expired))
      = init.map (fun p => (p.1 + 4000, TEvent.expired))
          ++ [(t + 4000, TEvent.expired)] := by simp
  have hmapS : (init ++ [(t, ty, msg)]).map
        (fun p => (p.1, TEvent.display p.2.1 p.2.2))
      = init.map (fun p => (p.1, TEvent.display p.2.1 p.2.2))
          ++ [(t, TEvent.display ty msg)] := by simp
  have hS : ∀ y ∈ init.map (fun p => (p.1, TEvent.display p.2.1 p.2.2))
        ++ [(t, TEvent.display ty msg)], y.1 < t + 4000 := by
    intro y hy
    rcases List.mem_append.mp hy with hy | hy
    · rcases List.mem_map.mp hy with ⟨p, hp, rfl⟩
      have := hstale p hp
      simp only
      omega
    · simp only [List.mem_singleton] at hy
      subst hy
      simp only
      omega
  have hE : ∀ e ∈ init.map (fun p => (p.1 + 4000, TEvent.expired)),
      e.1 ≤ t := by
    intro e he
    rcases List.mem_map.mp he with ⟨p, hp, rfl⟩
    exact hstale p hp
  unfold alertAt timeline
  rw [hmapE, hmapS, List.foldr_append]
  simp only [List.foldr_cons, List.foldr_nil]
  rw [insertEv_eq_concat _ _ hS]
  have hshape : (init.map (fun p => (p.1, TEvent.display p.2.1 p.2.2))
        ++ [(t, TEvent.display ty msg)]) ++ [(t + 4000, TEvent.expired)]
      = init.map (fun p => (p.1, TEvent.display p.2.1 p.2.2))
        ++ [(t, TEvent.display ty msg), (t + 4000, TEvent.expired)] := by
    simp
  rw [hshape, foldr_insertEv_concat₂ _ _ t (t + 4000) _ _ hE (by omega)]
  rw [List.filter_append, List.foldl_append]
  have hkeep : List.filter (fun e => e.1 ≤ T)
        [(t, TEvent.display ty msg), (t + 4000, TEvent.expired)]
      = [(t, TEvent.display ty msg)] := by
    have hnot : ¬ t + 4000 ≤ T := by omega
    simp [List.filter, h1, hnot]
  rw [hkeep]
  simp [notifStep]

/-- Witness for `notification_window`: an earlier notification shown at
time 0, the last one shown at 4000 (its stale timer due exactly then),
queried at 5000. -/
theorem notification_window_witness :
    alertAt [(0, "success", "A"), (4000, "error", "B")] 5000
      = showAlert "error" "B" :=
  notification_window [(0, "success", "A")] 4000 5000 "error" "B"
    (by intro p hp; simp only [List.mem_singleton] at hp; subst hp; norm_num)
    (by norm_num) (by norm_num)

/-- C1: the claim that `clearAll` resets *every* session field to its
initial value is false: it never touches the alert or the loading flag,
so from a state with a visible notification and an outstanding operation
both survive the clear. -/
theorem clearAll_cex :
    (clearAll { initialState with
        alert := showAlert "error" "Upload failed", loading := true }).alert
      ≠ Alert.none ∧
    (clearAll { initialState with
        alert := showAlert "error" "Upload failed", loading := true }).loading
      ≠ initialState.loading := by
  decide

/-- C1 (amended): `clearAll` resets the transcript, instruction, summary,
summary id, file name, edit flag and recipients to their initial empty
values, for any prior state — but it leaves the loading flag, the
notification, and the input-method toggle unchanged. -/
theorem clearAll_reset (s : AppState) :
    (clearAll s).transcript = "" ∧ (clearAll s).customPrompt = "" ∧
    (clearAll s).summary = "" ∧ (clearAll s).summaryId = "" ∧
    (clearAll s).fileName = "" ∧ (clearAll s).editMode = false ∧
    (clearAll s).recipientEmails = "" ∧
    (clearAll s).loading = s.loading ∧ (clearAll s).alert = s.alert ∧
    (clearAll s).inputMethod = s.inputMethod := by
  simp [clearAll]

/-- C2: the claim that every transition-triggering operation is disabled
while an operation is in flight is false: in a busy state that is not in
edit mode, the send button, the clear button and the file input are all
still enabled. -/
theorem busy_gating_cex :
    ({ initialState with loading := true, summary := "done" } : AppState).loading
      = true ∧
    sendDisabled { initialState with loading := true, summary := "done" }
      = false ∧
    clearDisabled { initialState with loading := true, summary := "done" }
      = false ∧
    uploadDisabled { initialState with loading := true, summary := "done" }
      = false := by
  decide

/-- C2 (amended): while `loading` is true the generate and edit/save
triggers are disabled, but the send trigger is gated only by the edit
flag, and the clear and upload triggers are never disabled — the busy
flag does not prevent starting a send, clear, or upload. -/
theorem busy_gating (s : AppState) (h : s.loading = true) :
    generateDisabled s = true ∧ editSaveDisabled s = true ∧
    sendDisabled s = s.editMode ∧
    clearDisabled s = false ∧ uploadDisabled s = false := by
  simp [generateDisabled, editSaveDisabled, sendDisabled, clearDisabled,
    uploadDisabled, h]

/-- Witness for `busy_gating` at a concrete busy state. -/
theorem busy_gating_witness :
    generateDisabled { initialState with loading := true } = true ∧
    editSaveDisabled { initialState with loading := true } = true ∧
    sendDisabled { initialState with loading := true }
      = ({ initialState with loading := true } : AppState).editMode ∧
    clearDisabled { initialState with loading := true } = false ∧
    uploadDisabled { initialState with loading := true } = false :=
  busy_gating { initialState with loading := true } rfl

/-- C3: the claim that `handleUpdateSummary` with an undefined
`summaryId` surfaces an `InvalidState` error notification is false: with
`summaryId = ""` it returns immediately — no request, no notification,
no state change at all — so the operation *is* silently swallowed. -/
theorem update_silent_cex :
    ({ initialState with summary := "text" } : AppState).summaryId = "" ∧
    handleUpdateSummary { initialState with summary := "text" }
        (.remoteFail "boom")
      = ({ initialState with summary := "text" }, []) ∧
    (handleUpdateSummary { initialState with summary := "text" }
        (.remoteFail "boom")).1.alert.shown = false := by
  decide

/-- C3 (amended): whenever `summaryId` is empty, `handleUpdateSummary`
is a silent no-op: it issues no request, shows no notification, and
leaves the state unchanged. -/
theorem update_noop_without_id (s : AppState) (resp : FetchOutcome Unit)
    (h : s.summaryId = "") :
    handleUpdateSummary s resp = (s, []) := by
  unfold handleUpdateSummary
  simp [h]

/-- Witness for `update_noop_without_id` at the initial state. -/
theorem update_noop_without_id_witness :
    handleUpdateSummary initialState (.ok ()) = (initialState, []) :=
  update_noop_without_id initialState (.ok ()) rfl

/-- C4: the claim that the paste path clears `sourceLabel` (the file
name) is false: the textarea's `onChange` only calls `setTranscript`,
so a previously uploaded file's name survives a paste. -/
theorem paste_keeps_fileName_cex :
    (pasteTranscript { initialState with fileName := "notes.txt" }
        "hello").fileName = "notes.txt" ∧
    ("notes.txt" : String) ≠ "" := by
  decide

/-- C4 (amended): `pasteTranscript text` sets the transcript to `text`
and never fails, but leaves every other field — in particular the file
name — unchanged rather than clearing it. -/
theorem pasteTranscript_spec (s : AppState) (text : String) :
    (pasteTranscript s text).transcript = text ∧
    (pasteTranscript s text).fileName = s.fileName ∧
    (pasteTranscript s text).customPrompt = s.customPrompt ∧
    (pasteTranscript s text).summary = s.summary ∧
    (pasteTranscript s text).summaryId = s.summaryId ∧
    (pasteTranscript s text).loading = s.loading ∧
    (pasteTranscript s text).alert = s.alert ∧
    (pasteTranscript s text).editMode = s.editMode := by
  simp [pasteTranscript]

/-- C5: when `handleUpdateSummary` runs with a defined `summaryId`, a
non-empty (trimmed) summary and `editMode = true`, and the persistence
call fails — as an explicit server failure or a transport error — the
edit flag stays true, the summary text is untouched, an error
notification is shown, and the loading flag is cleared. -/
theorem updateSummary_failure_preserves (s : AppState) (detail msg : String)
    (hid : s.summaryId ≠ "") (hsum : jsTrim s.summary ≠ "")
    (hedit : s.editMode = true) :
    ((handleUpdateSummary s (.remoteFail detail)).1.editMode = true ∧
     (handleUpdateSummary s (.remoteFail detail)).1.summary = s.summary ∧
     (handleUpdateSummary s (.remoteFail detail)).1.alert.shown = true ∧
     (handleUpdateSummary s (.remoteFail detail)).1.alert.type = "error" ∧
     (handleUpdateSummary s (.remoteFail detail)).1.loading = false) ∧
    ((handleUpdateSummary s (.transportFail msg)).1.editMode = true ∧
     (handleUpdateSummary s (.transportFail msg)).1.summary = s.summary ∧
     (handleUpdateSummary s (.transportFail msg)).1.alert.shown = true ∧
     (handleUpdateSummary s (.transportFail msg)).1.alert.type = "error" ∧
     (handleUpdateSummary s (.transportFail msg)).1.loading = false) := by
  unfold handleUpdateSummary
  simp [hid, hsum, hedit, showAlert]

/-- Witness for `updateSummary_failure_preserves` at the spec's P4
state (`summaryId = "s1"`, `summaryText = "edited text"`,
`editing = true`). -/
theorem updateSummary_failure_preserves_witness :
    ((handleUpdateSummary { initialState with
        summaryId := "s1", summary := "edited text", editMode := true }
        (.remoteFail "boom")).1.editMode = true ∧
     (handleUpdateSummary { initialState with
        summaryId := "s1", summary := "edited text", editMode := true }
        (.remoteFail "boom")).1.summary
       = ({ initialState with summaryId := "s1"
                              summary := "edited text"
                              editMode := true } : AppState).summary ∧
     (handleUpdateSummary { initialState with
        summaryId := "s1", summary := "edited text", editMode := true }
        (.remoteFail "boom")).1.alert.shown = true ∧
     (handleUpdateSummary { initialState with
        summaryId := "s1", summary := "edited text", editMode := true }
        (.remoteFail "boom")).1.alert.type = "error" ∧
     (handleUpdateSummary { initialState with
        summaryId := "s1", summary := "edited text", editMode := true }
        (.remoteFail "boom")).1.loading = false) ∧
    ((handleUpdateSummary { initialState with
        summaryId := "s1", summary := "edited text", editMode := true }
        (.transportFail "")).1.editMode = true ∧
     (handleUpdateSummary { initialState with
        summaryId := "s1", summary := "edited text", editMode := true }
        (.transportFail "")).1.summary
       = ({ initialState with summaryId := "s1"
                              summary := "edited text"
                              editMode := true } : AppState).summary ∧
     (handleUpdateSummary { initialState with
        summaryId := "s1", summary := "edited text", editMode := true }
        (.transportFail "")).1.alert.shown = true ∧
     (handleUpdateSummary { initialState with
        summaryId := "s1", summary := "edited text", editMode := true }
        (.transportFail "")).1.alert.type = "error" ∧
     (handleUpdateSummary { initialState with
        summaryId := "s1", summary := "edited text", editMode := true }
        (.transportFail "")).1.loading = false) :=
  updateSummary_failure_preserves
    { initialState with summaryId := "s1", summary := "edited text", editMode := true }
    "boom" "" (by decide) (by decide) rfl

/-- C6: `handleSendEmail` performs no dispatch and shows an error
notification whenever `editMode = true`, whatever the summary content;
it performs no dispatch whenever the trimmed summary is empty; and it
dispatches the mail-compose request (fixed subject, greeting + summary +
closing body) with a success notification whenever `editMode = false`
and the trimmed summary is non-empty. -/
theorem sendEmail_gating (s : AppState) :
    (s.editMode = true →
      (handleSendEmail s).2 = Option.none ∧
      (handleSendEmail s).1.alert.shown = true ∧
      (handleSendEmail s).1.alert.type = "error") ∧
    (jsTrim s.summary = "" → (handleSendEmail s).2 = Option.none) ∧
    (s.editMode = false → jsTrim s.summary ≠ "" →
      (handleSendEmail s).2
        = some { recipients := s.recipientEmails
                 subject := "Meeting Summary"
                 body := "Hi,\n\nPlease find the meeting summary below:\n\n"
                          ++ s.summary ++ "\n\nBest regards" } ∧
      (handleSendEmail s).1.alert.type = "success") := by
  unfold handleSendEmail
  refine ⟨?_, ?_, ?_⟩
  · intro he
    by_cases hs : jsTrim s.summary = "" <;> simp [hs, he, showAlert]
  · intro hs
    simp [hs, showAlert]
  · intro he hs
    simp [hs, he, showAlert]

/-- Witness for `sendEmail_gating`: its edit-mode branch at a concrete
state with a non-empty summary. -/
theorem sendEmail_gating_witness :
    (handleSendEmail { initialState with summary := "done"
                                         editMode := true }).2 = Option.none ∧
    (handleSendEmail { initialState with summary := "done"
                                         editMode := true }).1.alert.shown = true ∧
    (handleSendEmail { initialState with summary := "done"
                                         editMode := true }).1.alert.type = "error" :=
  (sendEmail_gating { initialState with summary := "done", editMode := true }).1 rfl

/-- C7: `handleGenerateSummary` checks transcript presence before
instruction presence: with both the trimmed transcript and the trimmed
instruction empty, the result is exactly the transcript-missing error
notification — never the instruction-missing one — and no request is
issued. -/
theorem generate_validation_order (s : AppState)
    (resp : FetchOutcome GenPayload) (ht : jsTrim s.transcript = "")
    (_hp : jsTrim s.customPrompt = "") :
    handleGenerateSummary s resp
      = ({ s with
            alert := showAlert "error" "Please provide a transcript first" },
         []) := by
  unfold handleGenerateSummary
  simp [ht]

/-- Witness for `generate_validation_order` at the (all-empty) initial
state. -/
theorem generate_validation_order_witness :
    handleGenerateSummary initialState (.ok ⟨"", ""⟩)
      = ({ initialState with
            alert := showAlert "error" "Please provide a transcript first" },
         []) :=
  generate_validation_order initialState (.ok ⟨"", ""⟩) rfl rfl

/-- C8: `handleFileUpload` on a file whose name does not end in `.txt`
(case-sensitively) only shows the invalid-file-type error — every other
field unchanged — and issues no request; on a name ending in `.txt` it
issues exactly one upload request. -/
theorem fileUpload_gate (s : AppState) (name : String)
    (resp : FetchOutcome String) :
    (jsEndsWith name ".txt" = false →
      handleFileUpload s (some name) resp
        = ({ s with
              alert := showAlert "error" "Please upload a .txt file only" },
           [])) ∧
    (jsEndsWith name ".txt" = true →
      (handleFileUpload s (some name) resp).2 = [Request.upload name]) := by
  constructor
  · intro h
    unfold handleFileUpload
    simp [h]
  · intro h
    unfold handleFileUpload
    cases resp <;> simp [h]

/-- Witness for `fileUpload_gate`: `notes.pdf` is rejected with no
request, `notes.txt` issues exactly one upload request. -/
theorem fileUpload_gate_witness :
    (handleFileUpload initialState (some "notes.pdf") (.ok "text")
      = ({ initialState with
            alert := showAlert "error" "Please upload a .txt file only" },
         [])) ∧
    (handleFileUpload initialState (some "notes.txt") (.ok "text")).2
      = [Request.upload "notes.txt"] :=
  ⟨(fileUpload_gate initialState "notes.pdf" (.ok "text")).1 (by decide),
   (fileUpload_gate initialState "notes.txt" (.ok "text")).2 (by decide)⟩

/-- A string all of whose characters are whitespace trims to the empty
string. -/
theorem jsTrim_eq_empty_of_all_ws (w : String)
    (h : ∀ c ∈ w.data, isWs c = true) : jsTrim w = "" := by
  unfold jsTrim
  have h1 : w.data.dropWhile isWs = [] := List.dropWhile_eq_nil_iff.mpr h
  rw [h1]
  rfl

/-- C10: every emptiness check runs on the whitespace-trimmed string:
for a whitespace-only (raw non-empty) string, `handleGenerateSummary`
placed as transcript or as instruction issues no request,
`handleUpdateSummary` with it as summary issues no request, and
`handleSendEmail` with it as summary performs no dispatch and reports
the no-summary error. -/
theorem whitespace_trim_validation (s : AppState) (w : String)
    (rg : FetchOutcome GenPayload) (ru : FetchOutcome Unit)
    (_hne : w ≠ "") (hws : ∀ c ∈ w.data, isWs c = true) :
    (handleGenerateSummary { s with transcript := w } rg).2 = [] ∧
    (handleGenerateSummary { s with customPrompt := w } rg).2 = [] ∧
    (handleUpdateSummary { s with summary := w } ru).2 = [] ∧
    (handleSendEmail { s with summary := w }).2 = Option.none ∧
    (handleSendEmail { s with summary := w }).1.alert.message
      = "No summary to send" := by
  have hw : jsTrim w = "" := jsTrim_eq_empty_of_all_ws w hws
  refine ⟨?_, ?_, ?_, ?_, ?_⟩
  · unfold handleGenerateSummary
    simp [hw]
  · unfold handleGenerateSummary
    by_cases ht : jsTrim s.transcript = "" <;> simp [hw, ht]
  · unfold handleUpdateSummary
    simp [hw]
  · unfold handleSendEmail
    simp [hw]
  · unfold handleSendEmail
    simp [hw, showAlert]

/-- Witness for `whitespace_trim_validation` with the one-space
string. -/
theorem whitespace_trim_validation_witness :
    (handleGenerateSummary { initialState with transcript := " " }
      (.ok ⟨"", ""⟩)).2 = [] ∧
    (handleGenerateSummary { initialState with customPrompt := " " }
      (.ok ⟨"", ""⟩)).2 = [] ∧
    (handleUpdateSummary { initialState with summary := " " }
      (.ok ())).2 = [] ∧
    (handleSendEmail { initialState with summary := " " }).2
      = Option.none ∧
    (handleSendEmail { initialState with summary := " " }).1.alert.message
      = "No summary to send" :=
  whitespace_trim_validation initialState " " (.ok ⟨"", ""⟩) (.ok ())
    (by decide) (by decide)

end Summarizer
